import Mathlib

/-!
Shallow embedding of the multi-agent document QA core of the AADIS
repository (query analysis, table analysis, text retrieval, supervisor
synthesis, session orchestration), together with theorems settling the
frozen claims about it.  Python dicts that preserve insertion order are
modelled as association lists; floating-point scores are modelled as
rationals.
-/

namespace AADIS

/-! ### QueryAnalyzer (src/agents/qa_agents/query_analyzer.py)

The analyzer's pattern sets are Python regexes of the form
`\b(alt1|alt2|...)\b`.  Each alternative is a sequence of literal
characters, possibly ending with a `\d+` run (as in `figure \d+`).
`re.search` succeeds iff some alternative occurs in the query with word
boundaries on both sides.  We model one alternative as a list of tokens
and a pattern as the list of its alternatives. -/

inductive PTok where
  | lit (c : Char)
  | digs
deriving DecidableEq

/-- Python's `\w` over the ASCII queries handled here. -/
def isWordChar (c : Char) : Bool := c.isAlphanum || c = '_'

/-- Wordness of the first character an alternative can match. -/
def ptokFirstIsWord : List PTok → Bool
  | [] => true
  | .lit c :: _ => isWordChar c
  | .digs :: _ => true

/-- Wordness of the last character an alternative can match. -/
def ptokLastIsWord (p : List PTok) : Bool :=
  match p.getLast? with
  | none => true
  | some (.lit c) => isWordChar c
  | some .digs => true

/-- Match the alternative at the head of `cs`, returning the rest of the
input.  A `\d+` consumes the maximal digit run (for match existence under
a trailing word boundary this is equivalent to backtracking). -/
def matchToks : List PTok → List Char → Option (List Char)
  | [], rest => some rest
  | .lit _ :: _, [] => none
  | .lit c :: ps, d :: rest => if d = c then matchToks ps rest else none
  | .digs :: ps, rest =>
    let run := rest.takeWhile Char.isDigit
    if run.isEmpty then none else matchToks ps (rest.drop run.length)

/-- Does the alternative match at offset `i` of `q` with `\b` on both
sides?  A `\b` holds where a word character meets a non-word character
(or the string edge). -/
def matchAt (q : List Char) (i : Nat) (p : List PTok) : Bool :=
  match matchToks p (q.drop i) with
  | none => false
  | some rest =>
    let preOk :=
      match (q.take i).getLast? with
      | none => ptokFirstIsWord p
      | some c => isWordChar c != ptokFirstIsWord p
    let postOk :=
      match rest.head? with
      | none => ptokLastIsWord p
      | some c => isWordChar c != ptokLastIsWord p
    preOk && postOk

/-- `re.search` for a single alternative. -/
def altSearch (q : List Char) (p : List PTok) : Bool :=
  (List.range (q.length + 1)).any (fun i => matchAt q i p)

/-- A pattern `\b(a|b|...)\b` matches iff some alternative does. -/
def patternMatches (q : List Char) (pat : List (List PTok)) : Bool :=
  pat.any (altSearch q)

/-- Build a purely literal alternative from a string. -/
def lit (s : String) : List PTok := s.data.map PTok.lit

/-- Build an alternative that ends in `\d+`. -/
def litD (s : String) : List PTok := s.data.map PTok.lit ++ [PTok.digs]

def text_patterns : List (List (List PTok)) :=
  [ [lit "what", lit "who", lit "when", lit "where", lit "why", lit "how",
     lit "explain", lit "describe", lit "tell me about"],
    [lit "definition", lit "meaning", lit "concept", lit "idea"],
    [lit "summary", lit "summarize", lit "overview"] ]

def table_patterns : List (List (List PTok)) :=
  [ [lit "table", lit "data", lit "numbers", lit "statistics", lit "stats",
     lit "values"],
    [lit "row", lit "column", lit "cell", lit "header"],
    [lit "count", lit "sum", lit "average", lit "total", lit "maximum",
     lit "minimum", lit "mean"],
    [lit "compare", lit "comparison", lit "versus", lit "vs"],
    [lit "list all", lit "show all", lit "find all"] ]

def image_patterns : List (List (List PTok)) :=
  [ [lit "image", lit "picture", lit "figure", lit "chart", lit "graph",
     lit "diagram"],
    [lit "visual", lit "show", lit "display", lit "illustration"],
    [lit "fig.", litD "figure ", litD "image "] ]

/-- Lowercase a query the way `str.lower()` does for ASCII input. -/
def lowerChars (s : String) : List Char := s.data.map Char.toLower

/-- `_calculate_pattern_score`: fraction of patterns matched. -/
def calculatePatternScore (q : List Char) (patterns : List (List (List PTok))) : ℚ :=
  let matched := patterns.countP (fun p => patternMatches q p)
  let total := patterns.length
  if total > 0 then (matched : ℚ) / (total : ℚ) else 0

/-- The part of `process_query`'s result the claims are about.  The
`entities`, `keywords` and `complexity` fields are independent of the
routing logic and are not modelled here. -/
structure QueryAnalysis where
  original_query : String
  query_types : List String
  confidence_scores : List (String × ℚ)
  primary_type : String
  requires_multi_agent : Bool
deriving DecidableEq

/-- Python's `max(keys, key=get)`: the first key attaining the maximal
score (later keys replace the current best only on a strict increase). -/
def argmaxKey (scores : List (String × ℚ)) : String :=
  match scores with
  | [] => ""
  | kv :: rest =>
    (rest.foldl (fun best kv2 => if kv2.2 > best.2 then kv2 else best) kv).1

/-- `QueryAnalyzer.process_query`. -/
def processQuery (query : String) : QueryAnalysis :=
  let ql := lowerChars query
  let text_score := calculatePatternScore ql text_patterns
  let table_score := calculatePatternScore ql table_patterns
  let image_score := calculatePatternScore ql image_patterns
  let types0 : List String :=
    (if text_score > 3/10 then ["text"] else []) ++
    (if table_score > 3/10 then ["table"] else []) ++
    (if image_score > 3/10 then ["image"] else [])
  let scores0 : List (String × ℚ) :=
    (if text_score > 3/10 then [("text", text_score)] else []) ++
    (if table_score > 3/10 then [("table", table_score)] else []) ++
    (if image_score > 3/10 then [("image", image_score)] else [])
  let types := if types0.isEmpty then ["text"] else types0
  let scores := if types0.isEmpty then [("text", 1/2)] else scores0
  { original_query := query
    query_types := types
    confidence_scores := scores
    primary_type := argmaxKey scores
    requires_multi_agent := types.length > 1 }

/-- Short hand for the number of patterns of a set matched by a query. -/
def matchedCount (q : String) (patterns : List (List (List PTok))) : Nat :=
  List.countP (fun p => patternMatches (lowerChars q) p) patterns

/-! ### TableAnalysisAgent (src/agents/qa_agents/table_analysis_agent.py)

A pandas DataFrame built from a table payload is modelled as a list of
named columns; a cell is either a number or a string, and a column whose
cells are all numbers gets a numeric dtype (the ones `select_dtypes`
keeps). -/

inductive Cell where
  | num (q : ℚ)
  | str (s : String)
deriving DecidableEq

def Cell.isNum : Cell → Bool
  | .num _ => true
  | .str _ => false

def Cell.val : Cell → ℚ
  | .num q => q
  | .str _ => 0

/-- A DataFrame: ordered named columns of cells. -/
structure Frame where
  cols : List (String × List Cell)
deriving DecidableEq

/-- The columns `df.select_dtypes(include=[np.number])` keeps. -/
def numericColumns (df : Frame) : List (String × List Cell) :=
  df.cols.filter (fun c => c.2.all Cell.isNum)

def numericColumnNames (df : Frame) : List String :=
  (numericColumns df).map (·.1)

inductive AnalysisKind where
  | count | sum | average | maximum | minimum | list | general
deriving DecidableEq

/-- The per-table analysis payload the operators return (the fields the
claims are about; `sample_data`/`data_types` of the list and general
operators are not modelled). -/
structure TableAnalysisResult where
  analysis_type : AnalysisKind
  summary : String
  values : List (String × ℚ) := []
  total_rows : Nat := 0
  total_columns : Nat := 0
deriving DecidableEq

def frameRowCount (df : Frame) : Nat :=
  (df.cols.map (fun c => c.2.length)).foldr max 0

def maxD : List ℚ → ℚ
  | [] => 0
  | x :: xs => xs.foldl max x

def minD : List ℚ → ℚ
  | [] => 0
  | x :: xs => xs.foldl min x

def colSum (c : List Cell) : ℚ := (c.map Cell.val).sum

def colMean (c : List Cell) : ℚ := colSum c / c.length

def countAnalysis (df : Frame) : TableAnalysisResult :=
  { analysis_type := .count
    total_rows := frameRowCount df
    total_columns := df.cols.length
    summary := "This table contains " ++ toString (frameRowCount df) ++
      " rows and " ++ toString df.cols.length ++ " columns." }

def sumAnalysis (df : Frame) : TableAnalysisResult :=
  if (numericColumns df).length > 0 then
    { analysis_type := .sum
      values := (numericColumns df).map (fun c => (c.1, colSum c.2))
      summary := "Sums calculated for numeric columns: " ++
        String.intercalate ", " (numericColumnNames df) }
  else
    { analysis_type := .sum
      summary := "No numeric columns found for sum calculation." }

def averageAnalysis (df : Frame) : TableAnalysisResult :=
  if (numericColumns df).length > 0 then
    { analysis_type := .average
      values := (numericColumns df).map (fun c => (c.1, colMean c.2))
      summary := "Averages calculated for numeric columns: " ++
        String.intercalate ", " (numericColumnNames df) }
  else
    { analysis_type := .average
      summary := "No numeric columns found for average calculation." }

def maxAnalysis (df : Frame) : TableAnalysisResult :=
  if (numericColumns df).length > 0 then
    { analysis_type := .maximum
      values := (numericColumns df).map (fun c => (c.1, maxD (c.2.map Cell.val)))
      summary := "Maximum values found for numeric columns: " ++
        String.intercalate ", " (numericColumnNames df) }
  else
    { analysis_type := .maximum
      summary := "No numeric columns found for maximum calculation." }

def minAnalysis (df : Frame) : TableAnalysisResult :=
  if (numericColumns df).length > 0 then
    { analysis_type := .minimum
      values := (numericColumns df).map (fun c => (c.1, minD (c.2.map Cell.val)))
      summary := "Minimum values found for numeric columns: " ++
        String.intercalate ", " (numericColumnNames df) }
  else
    { analysis_type := .minimum
      summary := "No numeric columns found for minimum calculation." }

def listAnalysis (df : Frame) : TableAnalysisResult :=
  { analysis_type := .list
    summary := "Table has columns: " ++ String.intercalate ", " (df.cols.map (·.1)) }

def generalAnalysis (df : Frame) : TableAnalysisResult :=
  { analysis_type := .general
    total_rows := frameRowCount df
    total_columns := df.cols.length
    summary := "General table information: " ++ toString (frameRowCount df) ++
      " rows, " ++ toString df.cols.length ++ " columns" }

/-- Python's `word in query_lower`: plain substring containment. -/
def containsSub (q w : String) : Bool :=
  (List.range (q.data.length + 1)).any (fun i => List.isPrefixOf w.data (q.data.drop i))

def lowerStr (s : String) : String := ⟨lowerChars s⟩

/-- Does the lowercased question contain any of the group's keywords? -/
def anyKeyword (query : String) (ws : List String) : Bool :=
  ws.any (containsSub (lowerStr query))

/-- The operator-selection chain of `_analyze_table`: the question is
tested case-insensitively against the ordered keyword groups and the
first matching group's operator runs. -/
def analyzeTable (query : String) (df : Frame) : TableAnalysisResult :=
  if anyKeyword query ["count", "how many", "number of"] then countAnalysis df
  else if anyKeyword query ["sum", "total", "add"] then sumAnalysis df
  else if anyKeyword query ["average", "mean"] then averageAnalysis df
  else if anyKeyword query ["maximum", "max", "highest"] then maxAnalysis df
  else if anyKeyword query ["minimum", "min", "lowest"] then minAnalysis df
  else if anyKeyword query ["list", "show", "find"] then listAnalysis df
  else generalAnalysis df

/-! ### SupervisorAgent (src/agents/qa_agents/supervisor_agent.py)

Agent results are Python dicts keyed by category string; the dict
preserves insertion order and is modelled as an association list.  The
source dicts the agents produce are opaque to the supervisor; they are
modelled as records of the optional fields the orchestrator later
reads. -/

inductive AgentStatus where
  | success | no_results | error
deriving DecidableEq

/-- A source dict as produced by the retrieval agents (all fields the
downstream formatting reads; absent dict keys are `none`). -/
structure Src where
  document : Option String := none
  page : Option Nat := none
  type : Option String := none
  caption : Option String := none
  headers : Option (List String) := none
  dimensions : Option String := none
  snippet : Option String := none
  similarity : Option ℚ := none
  relevance : Option Nat := none
deriving DecidableEq

/-- An `AgentResult` as consumed by `_synthesize_responses` (the `message`
key may be absent on non-error results, hence `Option`). -/
structure AgentResult where
  status : AgentStatus
  answer : String := ""
  sources : List Src := []
  message : Option String := none
deriving DecidableEq

/-- The supervisor's result dict (the `analysis` and `agent_results`
diagnostic passthrough fields are not modelled). -/
structure SupervisorResult where
  status : AgentStatus
  answer : String := ""
  sources : List Src := []
  message : Option String := none
  query : String := ""
  primary_agent : Option String := none
  agents_used : List String := []
  multi_agent_response : Bool := false
deriving DecidableEq

/-- `successful_results = {k: v for k, v in agent_results.items() if
v.get("status") == "success"}` (order-preserving). -/
def successfulResults (ar : List (String × AgentResult)) : List (String × AgentResult) :=
  ar.filter (fun kv => decide (kv.2.status = .success))

/-- The error messages collected when no agent succeeded. -/
def errorMessages (ar : List (String × AgentResult)) : List String :=
  (ar.filter (fun kv => decide (kv.2.status = .error))).map
    (fun kv => kv.2.message.getD "Unknown error")

/-- The fixed agent priority order of `_create_multi_agent_response`. -/
def agentOrder : List String := ["text", "table", "image"]

/-- Reorder the successful results: priority agents first (in `agentOrder`
order), then any remaining agents in encounter order. -/
def orderResults (results : List (String × AgentResult)) : List (String × AgentResult) :=
  (agentOrder.filterMap (fun t => (List.lookup t results).map (fun r => (t, r)))) ++
    results.filter (fun kv => !(agentOrder.contains kv.1))

/-- Python's `str.title()` after `replace("_", " ")`. -/
def titleCaseAux : List Char → Bool → List Char
  | [], _ => []
  | c :: cs, prevCased =>
    (if prevCased then c.toLower else c.toUpper) :: titleCaseAux cs c.isAlpha

def titleCase (s : String) : String :=
  ⟨titleCaseAux (s.data.map (fun c => if c = '_' then ' ' else c)) false⟩

/-- One agent's section of the combined multi-agent answer. -/
def agentSection (kv : String × AgentResult) : String :=
  "## " ++ titleCase kv.1 ++ " Information:\n" ++ kv.2.answer ++ "\n\n"

/-- The concatenated per-agent sections (the `+=` loop). -/
def joinSections : List (String × AgentResult) → String
  | [] => ""
  | kv :: rest => agentSection kv ++ joinSections rest

def multiHeader (query : String) : String :=
  "Based on your query '" ++ query ++ "', I found information from multiple sources:\n\n"

def multiFooter : String :=
  "This comprehensive answer draws from multiple information sources in the documents."

/-- `_create_multi_agent_response`. -/
def createMultiAgentResponse (query : String) (results : List (String × AgentResult)) : String :=
  multiHeader query ++ joinSections (orderResults results) ++ multiFooter

/-- `_synthesize_responses`: partition into successes, then branch on
zero / one / several of them. -/
def synthesizeResponses (query : String) (ar : List (String × AgentResult)) : SupervisorResult :=
  match successfulResults ar with
  | [] =>
    let errs := errorMessages ar
    { status := .no_results
      message := some ("I couldn't find relevant information to answer your query. " ++
        (if errs.isEmpty then "" else "Errors encountered: " ++ String.intercalate "; " errs))
      query := query }
  | [(k, r)] =>
    { status := .success
      answer := r.answer
      sources := r.sources
      query := query
      primary_agent := some k }
  | (k1, r1) :: (k2, r2) :: rest =>
    let succ := (k1, r1) :: (k2, r2) :: rest
    { status := .success
      answer := createMultiAgentResponse query succ
      sources := (succ.map (fun kv => kv.2.sources)).flatten
      query := query
      agents_used := succ.map (·.1)
      multi_agent_response := true }

/-- Concrete fixtures used by the witness theorems below. -/
def tResTANS : AgentResult :=
  { status := .success, answer := "TANS", sources := [{ document := some "d1" }] }

def bResBANS : AgentResult :=
  { status := .success, answer := "BANS",
    sources := [{ document := some "d2" }, { document := some "d3" }] }

def arMulti : List (String × AgentResult) := [("text", tResTANS), ("table", bResBANS)]

def tResANS : AgentResult :=
  { status := .success, answer := "ANS", sources := [{ document := some "d1" }] }

def eResBoom : AgentResult := { status := .error, message := some "boom" }

def eResCrash : AgentResult := { status := .error, message := some "crash" }

def arSingle : List (String × AgentResult) := [("text", tResANS), ("table", eResBoom)]

def arZero : List (String × AgentResult) := [("text", eResCrash), ("table", eResBoom)]

/-- `t` occurs verbatim inside `s`. -/
def IsSubstr (s t : String) : Prop := ∃ a b, s = a ++ t ++ b

/-! ### QAOrchestrator (src/agents/qa_agents/qa_orchestrator.py)

`ask_question` stores the supervisor's raw response dict in the
conversation history and returns the separately formatted user response.
The supervisor call and the timestamp are passed in as parameters; the
history list is explicit state.  The `query_type`/`complexity` enrichment
of successful responses reads the unmodelled `analysis` passthrough field
and is omitted. -/

structure ConversationEntry where
  session_id : String
  question : String
  response : SupervisorResult
  timestamp : String
deriving DecidableEq

/-- A source dict after `_format_sources_for_user` (Python-falsy values —
absent keys, empty strings, empty lists — add no key). -/
structure UserSrc where
  document : String
  page : Option Nat
  type : String
  description : Option String := none
  columns : Option (List String) := none
  size : Option String := none
  preview : Option String := none
deriving DecidableEq

def formatSourceForUser (s : Src) : UserSrc :=
  let base : UserSrc :=
    { document := s.document.getD "Unknown"
      page := s.page
      type := s.type.getD "text" }
  if s.type.getD "text" = "table" then
    { base with
      description := match s.caption with
        | some c => if c.isEmpty then none else some ("Table: " ++ c)
        | none => none
      columns := match s.headers with
        | some hs => if hs.isEmpty then none else some hs
        | none => none }
  else if s.type.getD "text" = "image" then
    { base with
      description := match s.caption with
        | some c => if c.isEmpty then none else some ("Image: " ++ c)
        | none => none
      size := match s.dimensions with
        | some d => if d.isEmpty then none else some d
        | none => none }
  else
    { base with
      preview := match s.snippet with
        | some p => if p.isEmpty then none else some p
        | none => none }

/-- The user-facing response dict. -/
structure UserResponse where
  answer : String
  sources : List UserSrc := []
  confidence : Option String := none
  suggestion : Option String := none
  error : Option String := none
deriving DecidableEq

/-- `_format_user_response`. -/
def formatUserResponse (r : SupervisorResult) : UserResponse :=
  match r.status with
  | .success =>
    { answer := r.answer
      sources := r.sources.map formatSourceForUser
      confidence := some (if r.multi_agent_response then "high" else "medium") }
  | .no_results =>
    { answer := "I couldn't find specific information to answer your question in the available documents."
      suggestion := some "Try rephrasing your question or asking about different aspects of the documents."
      sources := [] }
  | .error =>
    { answer := "I encountered an error while processing your question."
      error := some (r.message.getD "Unknown error")
      sources := [] }

/-- `ask_question` for the case where the supervisor returns a result:
appends one entry holding the raw supervisor response to the history and
returns the formatted response together with the new history. -/
def askQuestion (sup : String → SupervisorResult) (now : String)
    (question : String) (session_id : String)
    (history : List ConversationEntry) : UserResponse × List ConversationEntry :=
  let response := sup question
  let entry : ConversationEntry :=
    { session_id := session_id, question := question, response := response, timestamp := now }
  (formatUserResponse response, history ++ [entry])

/-- `get_conversation_history`. -/
def getConversationHistory (session_id : String)
    (history : List ConversationEntry) : List ConversationEntry :=
  history.filter (fun e => e.session_id == session_id)

/-- `clear_history`. -/
def clearHistory (session_id : String)
    (history : List ConversationEntry) : List ConversationEntry :=
  history.filter (fun e => e.session_id != session_id)

/-- A supervisor stub returning `no_results`, and a default entry, used by
the C6 counterexample. -/
def supNoResults : String → SupervisorResult := fun _ => { status := .no_results }

def emptyEntry : ConversationEntry :=
  { session_id := "", question := "", response := { status := .no_results }, timestamp := "" }

/-- History fixtures for the C7 witness: two sessions interleaved. -/
def entA1 : ConversationEntry :=
  { session_id := "a", question := "q1", response := { status := .no_results }, timestamp := "t1" }

def entB2 : ConversationEntry :=
  { session_id := "b", question := "q2", response := { status := .no_results }, timestamp := "t2" }

def entA3 : ConversationEntry :=
  { session_id := "a", question := "q3", response := { status := .no_results }, timestamp := "t3" }

def histAB : List ConversationEntry := [entA1, entB2, entA3]

/-! ### TextRAGAgent (src/agents/qa_agents/text_rag_agent.py)

A vector-index hit carries a content string, metadata (document id, page
number, block type) and a distance; `_retrieve_relevant_texts` resolves
each hit against the stored text blocks (matching document id and page
number, first match), converts distance to `similarity = 1 - distance`,
and sorts the surviving chunks by similarity descending with Python's
stable `list.sort`.  Distances are modelled as rationals, the stable
descending sort as an insertion sort that places an earlier element
before later elements of equal similarity. -/

structure TextHit where
  content : String
  document_id : Nat
  page_number : Nat
  block_type : Option String := none
  distance : ℚ
deriving DecidableEq

structure TextBlockRec where
  id : Nat
  document_id : Nat
  page_number : Nat
deriving DecidableEq

structure DocumentRec where
  id : Nat
  filename : String
deriving DecidableEq

structure Chunk where
  content : String
  similarity_score : ℚ
  document_name : String
  page_number : Nat
  block_type : String
deriving DecidableEq

/-- Resolve one hit to a chunk; hits whose TextBlock cannot be found by
document id + page number are discarded. -/
def resolveHit (blocks : List TextBlockRec) (docs : List DocumentRec)
    (h : TextHit) : Option Chunk :=
  match blocks.find? (fun b => b.document_id == h.document_id &&
      b.page_number == h.page_number) with
  | none => none
  | some b =>
    some { content := h.content
           similarity_score := 1 - h.distance
           document_name := match docs.find? (fun d => d.id == b.document_id) with
             | some d => d.filename
             | none => "Unknown"
           page_number := h.page_number
           block_type := h.block_type.getD "text" }

/-- Insert into a similarity-descending list, after strictly greater
elements and before equal ones (the earlier element wins ties). -/
def insertChunkDesc (x : Chunk) : List Chunk → List Chunk
  | [] => [x]
  | y :: ys =>
    if x.similarity_score < y.similarity_score then y :: insertChunkDesc x ys
    else x :: y :: ys

/-- Stable sort by similarity descending (`list.sort(key=..., reverse=True)`). -/
def sortChunksDesc : List Chunk → List Chunk
  | [] => []
  | x :: xs => insertChunkDesc x (sortChunksDesc xs)

/-- `_retrieve_relevant_texts`. -/
def retrieveRelevantTexts (blocks : List TextBlockRec) (docs : List DocumentRec)
    (hits : List TextHit) : List Chunk :=
  sortChunksDesc (hits.filterMap (resolveHit blocks docs))

/-! ### Theorems -/

theorem calculatePatternScore_eq (q : String) (patterns : List (List (List PTok))) :
    calculatePatternScore (lowerChars q) patterns =
      if patterns.length > 0 then (matchedCount q patterns : ℚ) / patterns.length else 0 := rfl

/-- **C1, counterexample.**  The question "table" contains a table-intent
trigger word (it matches the first table pattern) and matches no text or
image pattern, yet `table` is not among the detected categories: a single
matched pattern scores 1/5 = 0.2, which does not exceed 0.3, so the
analyzer falls back to the default `text` category. -/
theorem c1_counterexample :
    matchedCount "table" table_patterns = 1 ∧
    matchedCount "table" text_patterns = 0 ∧
    matchedCount "table" image_patterns = 0 ∧
    (processQuery "table").query_types = ["text"] ∧
    "table" ∉ (processQuery "table").query_types := by
  have hTab : matchedCount "table" table_patterns = 1 := by rfl
  have hT : matchedCount "table" text_patterns = 0 := by rfl
  have hI : matchedCount "table" image_patterns = 0 := by rfl
  have hq : (processQuery "table").query_types = ["text"] := by
    simp only [processQuery, calculatePatternScore_eq, hT, hTab, hI,
      show text_patterns.length = 3 from rfl, show table_patterns.length = 5 from rfl,
      show image_patterns.length = 3 from rfl]
    norm_num
  exact ⟨hTab, hT, hI, hq, by simp [hq]⟩

/-- **C1 (amended).**  For every question that matches at least two of the
five table-intent patterns (a single trigger word only yields score
1/5 ≤ 0.3) and matches no text-intent or image-intent pattern, the
analyzer includes `table` among the detected categories with a confidence
score strictly greater than 0.3; the category list is exactly `[table]`,
and `requires_multi_agent` is false. -/
theorem c1_table_detection (q : String)
    (htab : 2 ≤ matchedCount q table_patterns)
    (htext : matchedCount q text_patterns = 0)
    (himg : matchedCount q image_patterns = 0) :
    "table" ∈ (processQuery q).query_types ∧
    (processQuery q).confidence_scores =
      [("table", (matchedCount q table_patterns : ℚ) / 5)] ∧
    (3 : ℚ)/10 < (matchedCount q table_patterns : ℚ) / 5 ∧
    (processQuery q).query_types = ["table"] ∧
    (processQuery q).requires_multi_agent = false := by
  have hc : (2 : ℚ) ≤ (matchedCount q table_patterns : ℚ) := by exact_mod_cast htab
  have hgt : (3 : ℚ)/10 < (matchedCount q table_patterns : ℚ) / 5 := by
    rw [div_lt_div_iff₀ (by norm_num) (by norm_num)]
    linarith
  have hq : (processQuery q).query_types = ["table"] ∧
      (processQuery q).confidence_scores =
        [("table", (matchedCount q table_patterns : ℚ) / 5)] ∧
      (processQuery q).requires_multi_agent = false := by
    simp only [processQuery, calculatePatternScore_eq, htext, himg,
      show text_patterns.length = 3 from rfl, show table_patterns.length = 5 from rfl,
      show image_patterns.length = 3 from rfl]
    norm_num [hgt]
  refine ⟨?_, hq.2.1, hgt, hq.1, hq.2.2⟩
  simp [hq.1]

/-- **C1, witness.**  The question "compare data" matches two table
patterns ("data" and "compare") and no text or image pattern; the
analyzer detects exactly `[table]` with score 2/5 and no multi-agent
requirement. -/
theorem c1_table_detection_witness :
    (2 ≤ matchedCount "compare data" table_patterns ∧
      matchedCount "compare data" text_patterns = 0 ∧
      matchedCount "compare data" image_patterns = 0) ∧
    ("table" ∈ (processQuery "compare data").query_types ∧
      (processQuery "compare data").confidence_scores =
        [("table", (matchedCount "compare data" table_patterns : ℚ) / 5)] ∧
      (3 : ℚ)/10 < (matchedCount "compare data" table_patterns : ℚ) / 5 ∧
      (processQuery "compare data").query_types = ["table"] ∧
      (processQuery "compare data").requires_multi_agent = false) :=
  ⟨⟨by decide, by decide, by decide⟩,
    c1_table_detection "compare data" (by decide) (by decide) (by decide)⟩

/-- **C2, counterexample.**  The analysis of "compare data" succeeds but
returns only the `table` category: `text` is not among the detected
categories, refuting "the returned category list always contains the
`text` category". -/
theorem c2_counterexample :
    (processQuery "compare data").query_types = ["table"] ∧
    "text" ∉ (processQuery "compare data").query_types := by
  have hT : matchedCount "compare data" text_patterns = 0 := by rfl
  have hTab : matchedCount "compare data" table_patterns = 2 := by rfl
  have hI : matchedCount "compare data" image_patterns = 0 := by rfl
  have hq : (processQuery "compare data").query_types = ["table"] := by
    simp only [processQuery, calculatePatternScore_eq, hT, hTab, hI,
      show text_patterns.length = 3 from rfl, show table_patterns.length = 5 from rfl,
      show image_patterns.length = 3 from rfl]
    norm_num
  exact ⟨hq, by simp [hq]⟩

/-- **C2 (amended).**  The analysis never fails and always returns a
non-empty category list, but `text` is only guaranteed when the text
score exceeds 0.3 or when no category clears the 0.3 threshold (the
default); when another category clears the threshold and text does not,
`text` is absent. -/
theorem c2_nonempty_text_default (q : String) :
    (processQuery q).query_types ≠ [] ∧
    ("text" ∈ (processQuery q).query_types ↔
      ((3 : ℚ)/10 < calculatePatternScore (lowerChars q) text_patterns ∨
        (calculatePatternScore (lowerChars q) text_patterns ≤ 3/10 ∧
          calculatePatternScore (lowerChars q) table_patterns ≤ 3/10 ∧
          calculatePatternScore (lowerChars q) image_patterns ≤ 3/10))) := by
  by_cases h1 : (3 : ℚ)/10 < calculatePatternScore (lowerChars q) text_patterns <;>
    by_cases h2 : (3 : ℚ)/10 < calculatePatternScore (lowerChars q) table_patterns <;>
      by_cases h3 : (3 : ℚ)/10 < calculatePatternScore (lowerChars q) image_patterns <;>
        simp [processQuery, h1, h2, h3, not_lt.mp, le_of_not_lt]

/-- Supporting invariant for the supervisor claims: the analyzer emits its
detected categories as a subsequence of the fixed priority order
text, table, image, so the supervisor's routed result dict is always
keyed in that order. -/
theorem processQuery_types_sublist (q : String) :
    ((processQuery q).query_types).Sublist ["text", "table", "image"] := by
  by_cases h1 : (3 : ℚ)/10 < calculatePatternScore (lowerChars q) text_patterns <;>
    by_cases h2 : (3 : ℚ)/10 < calculatePatternScore (lowerChars q) table_patterns <;>
      by_cases h3 : (3 : ℚ)/10 < calculatePatternScore (lowerChars q) image_patterns <;>
        simp [processQuery, h1, h2, h3]

/-- **C5.**  Operator selection is a priority chain: any question whose
lowercase form contains a sum-intent keyword but no count-intent keyword
selects the `sum` operator for every table, regardless of which
lower-priority groups (average, maximum, ...) also match.  In particular
"what is the total and average" selects `sum`, not `average`. -/
theorem c5_sum_priority (query : String) (df : Frame)
    (hsum : anyKeyword query ["sum", "total", "add"] = true)
    (hcount : anyKeyword query ["count", "how many", "number of"] = false) :
    (analyzeTable query df).analysis_type = .sum := by
  unfold analyzeTable
  rw [hcount, hsum]
  simp only [Bool.false_eq_true, if_false, if_true]
  unfold sumAnalysis
  split <;> rfl

/-- **C5, witness.**  "what is the total and average" contains both
"total" (sum group) and "average" (average group) and no count-group
keyword; over a table with a single numeric `qty` column the selected
operator is `sum`. -/
theorem c5_sum_priority_witness :
    (anyKeyword "what is the total and average" ["sum", "total", "add"] = true ∧
      anyKeyword "what is the total and average" ["average", "mean"] = true ∧
      anyKeyword "what is the total and average" ["count", "how many", "number of"] = false) ∧
    (analyzeTable "what is the total and average"
      ⟨[("qty", [Cell.num 1, Cell.num 2])]⟩).analysis_type = .sum :=
  ⟨⟨by decide, by decide, by decide⟩,
    c5_sum_priority "what is the total and average"
      ⟨[("qty", [Cell.num 1, Cell.num 2])]⟩ (by decide) (by decide)⟩

/-- **C9.**  Over a table whose DataFrame has zero numeric columns, each
of the sum, average, maximum and minimum operators still returns a result
(the functions are total, mirroring that the code raises nothing here)
whose summary explicitly states that no numeric columns were found. -/
theorem c9_no_numeric_columns (df : Frame)
    (h : numericColumns df = []) :
    (sumAnalysis df).summary = "No numeric columns found for sum calculation." ∧
    (averageAnalysis df).summary = "No numeric columns found for average calculation." ∧
    (maxAnalysis df).summary = "No numeric columns found for maximum calculation." ∧
    (minAnalysis df).summary = "No numeric columns found for minimum calculation." ∧
    (sumAnalysis df).analysis_type = .sum ∧
    (averageAnalysis df).analysis_type = .average ∧
    (maxAnalysis df).analysis_type = .maximum ∧
    (minAnalysis df).analysis_type = .minimum := by
  simp [sumAnalysis, averageAnalysis, maxAnalysis, minAnalysis, h]

/-- **C9, witness.**  A table with a single all-string column has no
numeric columns; every aggregation operator reports that instead of
failing. -/
theorem c9_no_numeric_columns_witness :
    numericColumns ⟨[("name", [Cell.str "a", Cell.str "b"])]⟩ = [] ∧
    (sumAnalysis ⟨[("name", [Cell.str "a", Cell.str "b"])]⟩).summary =
      "No numeric columns found for sum calculation." ∧
    (averageAnalysis ⟨[("name", [Cell.str "a", Cell.str "b"])]⟩).summary =
      "No numeric columns found for average calculation." ∧
    (maxAnalysis ⟨[("name", [Cell.str "a", Cell.str "b"])]⟩).summary =
      "No numeric columns found for maximum calculation." ∧
    (minAnalysis ⟨[("name", [Cell.str "a", Cell.str "b"])]⟩).summary =
      "No numeric columns found for minimum calculation." := by
  have h : numericColumns ⟨[("name", [Cell.str "a", Cell.str "b"])]⟩ = [] := by decide
  have hmain := c9_no_numeric_columns ⟨[("name", [Cell.str "a", Cell.str "b"])]⟩ h
  exact ⟨h, hmain.1, hmain.2.1, hmain.2.2.1, hmain.2.2.2.1⟩

/-- **C10.**  The intent test is plain substring containment on the
lowercased question, not word-boundary matching: whenever the lowercase
form contains "count", "how many" or "number of" anywhere — including
inside longer words such as "country" or "discount" — the count operator
is selected for every analyzed table, even if lower-priority keywords
also occur. -/
theorem c10_count_substring (query : String) (df : Frame)
    (h : anyKeyword query ["count", "how many", "number of"] = true) :
    (analyzeTable query df).analysis_type = .count := by
  unfold analyzeTable
  rw [h]
  rfl

/-- **C10, witness.**  "average discount by country" contains "count"
only inside "discount"/"country", and also contains the sum-group word
"add" nowhere but the average-group word "average"; the count operator is
nevertheless selected. -/
theorem c10_count_substring_witness :
    (anyKeyword "average discount by country" ["count", "how many", "number of"] = true ∧
      anyKeyword "average discount by country" ["average", "mean"] = true ∧
      altSearch (lowerChars "average discount by country") (lit "count") = false) ∧
    (analyzeTable "average discount by country"
      ⟨[("qty", [Cell.num 3])]⟩).analysis_type = .count :=
  ⟨⟨by decide, by decide, by decide⟩,
    c10_count_substring "average discount by country" ⟨[("qty", [Cell.num 3])]⟩ (by decide)⟩

theorem string_append_assoc (a b c : String) : a ++ b ++ c = a ++ (b ++ c) := by
  apply String.ext
  simp [String.data_append]

theorem joinSections_append (l₁ l₂ : List (String × AgentResult)) :
    joinSections (l₁ ++ l₂) = joinSections l₁ ++ joinSections l₂ := by
  induction l₁ with
  | nil => simp [joinSections, String.empty_append]
  | cons kv rest ih => simp [joinSections, ih, string_append_assoc]

theorem lookup_eq_none_of_key_not_mem {β : Type} (l : List (String × β)) (k : String)
    (h : k ∉ l.map Prod.fst) : List.lookup k l = none := by
  induction l with
  | nil => rfl
  | cons kv rest ih =>
    simp only [List.map_cons, List.mem_cons, not_or] at h
    simp [List.lookup, beq_eq_false_iff_ne.mpr h.1, ih h.2]

theorem lookup_eq_some_of_mem_nodup {β : Type} (l : List (String × β)) (k : String) (v : β)
    (hnd : (l.map Prod.fst).Nodup) (hm : (k, v) ∈ l) : List.lookup k l = some v := by
  induction l with
  | nil => simp at hm
  | cons kv rest ih =>
    simp only [List.map_cons, List.nodup_cons] at hnd
    rcases List.mem_cons.mp hm with heq | hmem
    · rw [← heq]
      simp [List.lookup]
    · have hk : k ≠ kv.1 := by
        intro heq2
        apply hnd.1
        rw [← heq2]
        exact List.mem_map.mpr ⟨(k, v), hmem, rfl⟩
      simpa [List.lookup, beq_eq_false_iff_ne.mpr hk] using ih hnd.2 hmem

theorem filterMap_lookup_eq_self (order : List String)
    (l : List (String × AgentResult)) (hnd : order.Nodup)
    (h : (l.map Prod.fst).Sublist order) :
    order.filterMap (fun t => (List.lookup t l).map (fun r => (t, r))) = l := by
  induction order generalizing l with
  | nil =>
    have : l = [] := by
      have := List.sublist_nil.mp h
      simpa using List.map_eq_nil_iff.mp this
    simp [this]
  | cons o os ih =>
    rw [List.nodup_cons] at hnd
    cases l with
    | nil =>
      simp [List.lookup_nil, List.filterMap]
    | cons kv l' =>
      obtain ⟨k, v⟩ := kv
      rw [List.map_cons] at h
      cases h with
      | cons _ h' =>
        have hok : o ∉ (((k, v) :: l').map Prod.fst) := by
          intro hmem
          exact hnd.1 (h'.subset (by simpa using hmem))
        rw [List.filterMap_cons, lookup_eq_none_of_key_not_mem _ _ hok]
        simpa using ih _ hnd.2 (by simpa using h')
      | cons₂ _ h' =>
        rw [List.filterMap_cons]
        have h1 : List.lookup k ((k, v) :: l') = some v := by simp [List.lookup]
        rw [h1]
        have h2 : os.filterMap (fun t => (List.lookup t ((k, v) :: l')).map (fun r => (t, r))) =
            os.filterMap (fun t => (List.lookup t l').map (fun r => (t, r))) := by
          apply List.filterMap_congr
          intro t ht
          have htne : t ≠ k := by
            rintro rfl
            exact hnd.1 ht
          simp [List.lookup, beq_eq_false_iff_ne.mpr htne]
        simp [h2, ih _ hnd.2 h']

theorem orderResults_eq_self (l : List (String × AgentResult))
    (h : (l.map Prod.fst).Sublist agentOrder) : orderResults l = l := by
  unfold orderResults
  have h1 : l.filter (fun kv => !(agentOrder.contains kv.1)) = [] := by
    apply List.filter_eq_nil_iff.mpr
    intro kv hkv
    have : kv.1 ∈ agentOrder := h.subset (List.mem_map.mpr ⟨kv, hkv, rfl⟩)
    simp [this]
  rw [h1, filterMap_lookup_eq_self agentOrder l (by decide) h, List.append_nil]

theorem substr_of_mem_sections (X Y : String) (l : List (String × AgentResult))
    (kv : String × AgentResult) (h : kv ∈ l) :
    IsSubstr (X ++ joinSections l ++ Y) kv.2.answer := by
  obtain ⟨s, t, rfl⟩ := List.append_of_mem h
  refine ⟨X ++ joinSections s ++ ("## " ++ titleCase kv.1 ++ " Information:\n"),
    "\n\n" ++ joinSections t ++ Y, ?_⟩
  simp [joinSections_append, joinSections, agentSection, string_append_assoc]

/-- **C3.**  When synthesis receives two or more successful AgentResults
(keys arriving in the analyzer's routing order, a subsequence of the
priority order text, table, image), the result has status success and the
multi-agent flag set, the combined answer contains each successful
agent's raw answer verbatim, the text agent's section precedes the table
agent's section, and the source list is the concatenation of the
successful agents' source lists in priority order. -/
theorem c3_multi_agent_synthesis (q : String) (ar : List (String × AgentResult))
    (hkeys : (ar.map Prod.fst).Sublist agentOrder)
    (hlen : 2 ≤ (successfulResults ar).length) :
    (synthesizeResponses q ar).status = .success ∧
    (synthesizeResponses q ar).multi_agent_response = true ∧
    (∀ kv ∈ successfulResults ar, IsSubstr (synthesizeResponses q ar).answer kv.2.answer) ∧
    (∀ rt rb, ("text", rt) ∈ successfulResults ar → ("table", rb) ∈ successfulResults ar →
      ∃ a b c, (synthesizeResponses q ar).answer = a ++ rt.answer ++ b ++ rb.answer ++ c) ∧
    (synthesizeResponses q ar).sources =
      ((orderResults (successfulResults ar)).map (fun kv => kv.2.sources)).flatten := by
  have hsub : ((successfulResults ar).map Prod.fst).Sublist agentOrder :=
    ((List.filter_sublist ar).map Prod.fst).trans hkeys
  have hord : orderResults (successfulResults ar) = successfulResults ar :=
    orderResults_eq_self _ hsub
  have hnd : ((successfulResults ar).map Prod.fst).Nodup :=
    List.Nodup.sublist hsub (by decide)
  cases hs : successfulResults ar with
  | nil => rw [hs] at hlen; simp at hlen
  | cons kv1 tail =>
    cases tail with
    | nil => rw [hs] at hlen; simp at hlen
    | cons kv2 rest =>
      obtain ⟨k1, r1⟩ := kv1
      obtain ⟨k2, r2⟩ := kv2
      rw [hs] at hord hnd
      have hsynth : synthesizeResponses q ar =
          { status := .success
            answer := createMultiAgentResponse q ((k1, r1) :: (k2, r2) :: rest)
            sources := (((k1, r1) :: (k2, r2) :: rest).map (fun kv => kv.2.sources)).flatten
            query := q
            agents_used := ((k1, r1) :: (k2, r2) :: rest).map (·.1)
            multi_agent_response := true } := by
        simp [synthesizeResponses, hs]
      have hans : (synthesizeResponses q ar).answer =
          multiHeader q ++ joinSections ((k1, r1) :: (k2, r2) :: rest) ++ multiFooter := by
        rw [hsynth]
        show createMultiAgentResponse q ((k1, r1) :: (k2, r2) :: rest) = _
        rw [createMultiAgentResponse, hord]
      refine ⟨by rw [hsynth], by rw [hsynth], ?_, ?_, ?_⟩
      · intro kv hkv
        rw [hans]
        exact substr_of_mem_sections _ _ _ _ hkv
      · intro rt rb hrt hrb
        have h1 : List.lookup "text" ((k1, r1) :: (k2, r2) :: rest) = some rt :=
          lookup_eq_some_of_mem_nodup _ _ _ hnd hrt
        have h2 : List.lookup "table" ((k1, r1) :: (k2, r2) :: rest) = some rb :=
          lookup_eq_some_of_mem_nodup _ _ _ hnd hrb
        obtain ⟨u, hu⟩ : ∃ u, (k1, r1) :: (k2, r2) :: rest =
            ("text", rt) :: ("table", rb) :: u := by
          refine ⟨((List.lookup "image" ((k1, r1) :: (k2, r2) :: rest)).map
              (fun r => ("image", r))).toList ++
            ((k1, r1) :: (k2, r2) :: rest).filter (fun kv => !(agentOrder.contains kv.1)), ?_⟩
          conv_lhs => rw [← hord]
          rw [orderResults]
          show (agentOrder.filterMap
              (fun t => (List.lookup t ((k1, r1) :: (k2, r2) :: rest)).map (fun r => (t, r)))) ++ _ = _
          rw [show agentOrder = ["text", "table", "image"] from rfl]
          rw [List.filterMap_cons, List.filterMap_cons, List.filterMap_cons, List.filterMap_nil]
          rw [h1, h2]
          cases List.lookup "image" ((k1, r1) :: (k2, r2) :: rest) <;> simp
        refine ⟨multiHeader q ++ ("## " ++ titleCase "text" ++ " Information:\n"),
          "\n\n" ++ ("## " ++ titleCase "table" ++ " Information:\n"),
          "\n\n" ++ joinSections u ++ multiFooter, ?_⟩
        rw [hans, hu]
        simp [joinSections, agentSection, string_append_assoc]
      · rw [hsynth, hord]

/-- **C4.**  With exactly one successful AgentResult the supervisor
passes its answer and sources through unchanged, tags the producing agent
as `primary_agent`, reports success, and surfaces no error message; with
zero successes — and only then — it returns `no_results` with a message
aggregating the individual agents' error messages joined by "; ". -/
theorem c4_single_and_zero_success (q : String) (ar : List (String × AgentResult)) :
    (∀ k r, successfulResults ar = [(k, r)] →
      synthesizeResponses q ar =
        { status := .success, answer := r.answer, sources := r.sources,
          query := q, primary_agent := some k }) ∧
    (successfulResults ar = [] →
      synthesizeResponses q ar =
        { status := .no_results
          message := some ("I couldn't find relevant information to answer your query. " ++
            (if (errorMessages ar).isEmpty then ""
             else "Errors encountered: " ++ String.intercalate "; " (errorMessages ar)))
          query := q }) ∧
    (successfulResults ar ≠ [] → (synthesizeResponses q ar).status = .success) := by
  refine ⟨?_, ?_, ?_⟩
  · intro k r h
    simp [synthesizeResponses, h]
  · intro h
    simp [synthesizeResponses, h]
  · intro h
    cases hs : successfulResults ar with
    | nil => exact absurd hs h
    | cons kv tail =>
      obtain ⟨k, r⟩ := kv
      cases tail with
      | nil => simp [synthesizeResponses, hs]
      | cons kv2 rest =>
        obtain ⟨k2, r2⟩ := kv2
        simp [synthesizeResponses, hs]

/-- **C3, witness.**  With a text success ("TANS", one source) and a
table success ("BANS", two sources) the synthesized result is a
successful multi-agent response containing both answers verbatim, text
before table, with the sources concatenated in priority order. -/
theorem c3_multi_agent_synthesis_witness :
    ((arMulti.map Prod.fst).Sublist agentOrder ∧
      2 ≤ (successfulResults arMulti).length) ∧
    (synthesizeResponses "q0" arMulti).status = .success ∧
    (synthesizeResponses "q0" arMulti).multi_agent_response = true ∧
    IsSubstr (synthesizeResponses "q0" arMulti).answer "TANS" ∧
    (∃ a b c, (synthesizeResponses "q0" arMulti).answer =
      a ++ "TANS" ++ b ++ "BANS" ++ c) ∧
    (synthesizeResponses "q0" arMulti).sources =
      ((orderResults (successfulResults arMulti)).map (fun kv => kv.2.sources)).flatten := by
  have hmain := c3_multi_agent_synthesis "q0" arMulti (by decide) (by decide)
  exact ⟨⟨by decide, by decide⟩, hmain.1, hmain.2.1,
    hmain.2.2.1 ("text", tResTANS) (by decide),
    hmain.2.2.2.1 tResTANS bResBANS (by decide) (by decide),
    hmain.2.2.2.2⟩

/-- **C4, witness.**  With text success and table error the result passes
the text answer/sources through with `primary_agent = text` and no error
message; with two errors it is `no_results` with both messages joined by
"; "; a non-empty success set always yields status success. -/
theorem c4_single_and_zero_success_witness :
    (successfulResults arSingle = [("text", tResANS)] ∧
      synthesizeResponses "w" arSingle =
        { status := .success, answer := "ANS", sources := [{ document := some "d1" }],
          query := "w", primary_agent := some "text" }) ∧
    (successfulResults arZero = [] ∧
      synthesizeResponses "w" arZero =
        { status := .no_results
          message := some ("I couldn't find relevant information to answer your query. " ++
            ("Errors encountered: " ++ "crash; boom"))
          query := "w" }) ∧
    (successfulResults arSingle ≠ [] ∧
      (synthesizeResponses "w" arSingle).status = .success) := by
  refine ⟨⟨by decide, ?_⟩, ⟨by decide, ?_⟩,
    ⟨by decide, (c4_single_and_zero_success "w" arSingle).2.2 (by decide)⟩⟩
  · exact (c4_single_and_zero_success "w" arSingle).1 "text" tResANS (by decide)
  · have h2 := (c4_single_and_zero_success "w" arZero).2.1 (by decide)
    rw [h2]
    rfl

/-- **C6, counterexample.**  `ask_question` appends the supervisor's raw
response, not the formatted payload it returns: with a supervisor that
returns `no_results`, the stored entry's response has answer `""` while
the payload returned to the caller carries the apology text, so the
stored response is not the payload returned to the caller. -/
theorem c6_counterexample :
    (askQuestion supNoResults "t0" "hi" "s" []).2 =
      [{ session_id := "s", question := "hi", response := { status := .no_results }, timestamp := "t0" }] ∧
    ((askQuestion supNoResults "t0" "hi" "s" []).2.headD emptyEntry).response.answer = "" ∧
    (askQuestion supNoResults "t0" "hi" "s" []).1.answer =
      "I couldn't find specific information to answer your question in the available documents." ∧
    ((askQuestion supNoResults "t0" "hi" "s" []).2.headD emptyEntry).response.answer ≠
      (askQuestion supNoResults "t0" "hi" "s" []).1.answer := by
  refine ⟨rfl, rfl, rfl, ?_⟩
  intro h
  exact absurd h (by decide)

/-- **C6 (amended).**  Every `ask_question` call in which the supervisor
returns a result appends exactly one ConversationEntry at the end of the
session history, containing the session id, the question, the
supervisor's raw (pre-formatting) response, and the timestamp; the caller
instead receives the formatted response derived from that raw response. -/
theorem c6_history_append (sup : String → SupervisorResult) (now question session_id : String)
    (history : List ConversationEntry) :
    (askQuestion sup now question session_id history).2.length = history.length + 1 ∧
    (askQuestion sup now question session_id history).2.take history.length = history ∧
    (askQuestion sup now question session_id history).2.getLast? =
      some { session_id := session_id, question := question,
             response := sup question, timestamp := now } ∧
    (askQuestion sup now question session_id history).1 = formatUserResponse (sup question) := by
  refine ⟨by simp [askQuestion], ?_, ?_, rfl⟩
  · simp [askQuestion, List.take_left]
  · simp [askQuestion, List.getLast?_concat]

/-- **C7.**  `clear_history(s)` removes exactly the entries of session
`s`: afterwards `s`'s history is empty, any other session's history is
unchanged (hence still in insertion order, being a sublist of the
original history), and no entry for `s` survives. -/
theorem c7_clear_isolation (history : List ConversationEntry) (s t : String) (hne : s ≠ t) :
    getConversationHistory s (clearHistory s history) = [] ∧
    getConversationHistory t (clearHistory s history) = getConversationHistory t history ∧
    (∀ e ∈ clearHistory s history, e.session_id ≠ s) ∧
    (getConversationHistory t history).Sublist history := by
  refine ⟨?_, ?_, ?_, List.filter_sublist _⟩
  · simp only [getConversationHistory, clearHistory, List.filter_filter]
    apply List.filter_eq_nil_iff.mpr
    intro e _
    simp [bne]
  · simp only [getConversationHistory, clearHistory, List.filter_filter]
    apply List.filter_congr
    intro e _
    by_cases hh : e.session_id = t
    · have : (e.session_id != s) = true := by
        simp [bne, hh]
        intro hc
        exact hne hc.symm
      simp [this]
    · simp [beq_eq_false_iff_ne.mpr hh]
  · intro e he
    have := List.mem_filter.mp he
    simpa [bne] using this.2

/-- **C7, witness.**  Clearing session "a" from a three-entry history
empties "a"'s view, leaves "b"'s single entry untouched and in order, and
no "a" entry survives. -/
theorem c7_clear_isolation_witness :
    ("a" : String) ≠ "b" ∧
    getConversationHistory "a" (clearHistory "a" histAB) = [] ∧
    getConversationHistory "b" (clearHistory "a" histAB) = getConversationHistory "b" histAB ∧
    (∀ e ∈ clearHistory "a" histAB, e.session_id ≠ "a") ∧
    (getConversationHistory "b" histAB).Sublist histAB := by
  have hmain := c7_clear_isolation histAB "a" "b" (by decide)
  exact ⟨by decide, hmain.1, hmain.2.1, hmain.2.2.1, hmain.2.2.2⟩

theorem mem_insertChunkDesc {a x : Chunk} {l : List Chunk} :
    a ∈ insertChunkDesc x l ↔ a = x ∨ a ∈ l := by
  induction l with
  | nil => simp [insertChunkDesc]
  | cons y ys ih =>
    unfold insertChunkDesc
    split
    · simp only [List.mem_cons, ih]
      tauto
    · simp only [List.mem_cons]

theorem mem_sortChunksDesc {a : Chunk} {l : List Chunk} :
    a ∈ sortChunksDesc l ↔ a ∈ l := by
  induction l with
  | nil => simp [sortChunksDesc]
  | cons x xs ih => simp [sortChunksDesc, mem_insertChunkDesc, ih]

theorem pairwise_insertChunkDesc {x : Chunk} {l : List Chunk}
    (h : l.Pairwise (fun a b => b.similarity_score ≤ a.similarity_score)) :
    (insertChunkDesc x l).Pairwise (fun a b => b.similarity_score ≤ a.similarity_score) := by
  induction l with
  | nil => simp [insertChunkDesc]
  | cons y ys ih =>
    rw [List.pairwise_cons] at h
    unfold insertChunkDesc
    split
    · rw [List.pairwise_cons]
      constructor
      · intro z hz
        rcases mem_insertChunkDesc.mp hz with rfl | hzys
        · exact le_of_lt (by assumption)
        · exact h.1 z hzys
      · exact ih h.2
    · rw [List.pairwise_cons]
      constructor
      · intro z hz
        rcases List.mem_cons.mp hz with rfl | hzys
        · exact not_lt.mp (by assumption)
        · exact le_trans (h.1 z hzys) (not_lt.mp (by assumption))
      · rw [List.pairwise_cons]
        exact h

theorem pairwise_sortChunksDesc (l : List Chunk) :
    (sortChunksDesc l).Pairwise (fun a b => b.similarity_score ≤ a.similarity_score) := by
  induction l with
  | nil => simp [sortChunksDesc]
  | cons x xs ih => exact pairwise_insertChunkDesc ih

theorem filter_insertChunkDesc (x : Chunk) (l : List Chunk) (s : ℚ) :
    (insertChunkDesc x l).filter (fun c => decide (c.similarity_score = s)) =
      if x.similarity_score = s then
        x :: l.filter (fun c => decide (c.similarity_score = s))
      else l.filter (fun c => decide (c.similarity_score = s)) := by
  induction l with
  | nil =>
    simp only [insertChunkDesc, List.filter]
    split <;> simp_all
  | cons y ys ih =>
    unfold insertChunkDesc
    by_cases hlt : x.similarity_score < y.similarity_score
    · rw [if_pos hlt]
      by_cases hx : x.similarity_score = s
      · have hy : ¬ (y.similarity_score = s) := by
          intro hys
          rw [← hx] at hys
          rw [hys] at hlt
          exact lt_irrefl _ hlt
        simp [List.filter_cons, ih, hx, hy]
      · simp [List.filter_cons, ih, hx]
    · rw [if_neg hlt]
      by_cases hx : x.similarity_score = s <;> simp [List.filter_cons, hx]

theorem filter_sortChunksDesc (l : List Chunk) (s : ℚ) :
    (sortChunksDesc l).filter (fun c => decide (c.similarity_score = s)) =
      l.filter (fun c => decide (c.similarity_score = s)) := by
  induction l with
  | nil => rfl
  | cons x xs ih =>
    rw [sortChunksDesc, filter_insertChunkDesc]
    by_cases hx : x.similarity_score = s <;> simp [List.filter, hx, ih]

/-- **C8.**  Every chunk returned by `_retrieve_relevant_texts` reports
similarity `1 - distance` of the hit it came from; the returned list is
sorted non-increasing by similarity; and the sort is stable: for each
similarity value, the chunks carrying it appear exactly as in the
index-returned (resolution) order. -/
theorem c8_similarity_sorted_stable (blocks : List TextBlockRec) (docs : List DocumentRec)
    (hits : List TextHit) :
    (∀ c ∈ retrieveRelevantTexts blocks docs hits, ∃ h ∈ hits,
      c.content = h.content ∧ c.similarity_score = 1 - h.distance) ∧
    (retrieveRelevantTexts blocks docs hits).Pairwise
      (fun a b => b.similarity_score ≤ a.similarity_score) ∧
    (∀ s : ℚ, (retrieveRelevantTexts blocks docs hits).filter
        (fun c => decide (c.similarity_score = s)) =
      (hits.filterMap (resolveHit blocks docs)).filter
        (fun c => decide (c.similarity_score = s))) := by
  refine ⟨?_, pairwise_sortChunksDesc _, fun s => filter_sortChunksDesc _ s⟩
  intro c hc
  rw [retrieveRelevantTexts] at hc
  obtain ⟨h, hh, hres⟩ := List.mem_filterMap.mp (mem_sortChunksDesc.mp hc)
  refine ⟨h, hh, ?_⟩
  rw [resolveHit] at hres
  split at hres
  · exact absurd hres (by simp)
  · rw [Option.some_inj] at hres
    rw [← hres]
    exact ⟨rfl, rfl⟩

end AADIS
